import Mathlib

/-!
Shallow embedding of the legacy-table scanner in `app/main.py`.

The scanner's pattern set is four Python regexes built from the key set of
the `tables.json` mapping.  Here each regex is embedded as an executable
matcher over the text (`List Char`), following the Python `re` semantics of
the concrete patterns: case-insensitive literals, ordered alternation,
word boundaries, and leftmost non-overlapping `finditer` scanning.  The
lazy and greedy repetitions occurring in these patterns are deterministic
(each repetition's character class is disjoint from the character that must
follow it), so they are embedded as minimal/maximal munch directly.
-/

namespace AssessTables

/-! ### Character classes of the patterns (ASCII fragment of Python `re`) -/

/-- Python `\w` (ASCII range): letters, digits, underscore. -/
def isWordChar (c : Char) : Bool := c.isAlphanum || c == '_'

/-- Python `\s`: whitespace characters. -/
def isSpaceChar (c : Char) : Bool :=
  c == ' ' || c == '\t' || c == '\n' || c == '\r' || c == '\x0b' || c == '\x0c'

/-- The class `[\w\-]` used for trailing field suffixes. -/
def isWordHyphen (c : Char) : Bool := isWordChar c || c == '-'

/-- The class `[\w\-\>]` used for assignment tokens. -/
def isTokChar (c : Char) : Bool := isWordChar c || c == '-' || c == '>'

/-- Is the character at index `i` a word character (out of range counts as not)? -/
def wordAt (s : List Char) (i : Nat) : Bool :=
  match s.get? i with
  | some c => isWordChar c
  | none => false

/-- Python `\b` at position `i`: a word character on exactly one side. -/
def atBoundary (s : List Char) (i : Nat) : Bool :=
  (if i = 0 then false else wordAt s (i - 1)) != wordAt s i

/-- Case-insensitive literal match of `lit` at position `i` (re.IGNORECASE). -/
def litAt (lit : List Char) (s : List Char) (i : Nat) : Bool :=
  ((s.drop i).take lit.length).map Char.toLower == lit.map Char.toLower

/-- Length of the maximal run of characters satisfying `p` starting at `i`
(maximal munch for `p*` / `p+`). -/
def countRun (p : Char → Bool) (s : List Char) (i : Nat) : Nat :=
  ((s.drop i).takeWhile p).length

/-- The slice `text[a:b]` as a string. -/
def slice (s : List Char) (a b : Nat) : String := String.mk ((s.take b).drop a)

/-! ### The table alternation `TBL_GROUP`

`TBL_GROUP = "|".join(sorted(map(re.escape, OLD_TABLES), key=len, reverse=True))`:
the known table names, longest first (Python `sorted` is stable; `re.escape`
is the identity on identifier-safe names, which is how the keys are used).
An alternation tries its alternatives in order; joining an empty key list
yields the empty pattern, which matches the empty string. -/

/-- Descending-length order of the alternation (longest name first). -/
def lenGe (a b : String) : Prop := b.length ≤ a.length

instance : DecidableRel lenGe := fun a b => Nat.decLe _ _

instance : IsTotal String lenGe := ⟨fun a b => (Nat.le_total a.length b.length).symm⟩

instance : IsTrans String lenGe := ⟨fun _ _ _ h₁ h₂ => Nat.le_trans h₂ h₁⟩

/-- `sorted(map(re.escape, OLD_TABLES), key=len, reverse=True)`: stable sort,
longest first.  A stable sort's output is unique, so the structural
insertion sort used here produces exactly Python's result. -/
def sortTables (ts : List String) : List String := List.insertionSort lenGe ts

/-- Match the alternation `(?P<obj>TBL_GROUP)` at position `j`, with the
rest of the pattern as continuation `k` (returning the end of the whole
match).  Alternatives are tried in list order; the captured text is the
slice actually matched.  An empty table list gives the empty pattern,
which matches the empty string. -/
def altTables (tables : List String) (s : List Char) (j : Nat) (k : Nat → Option Nat) :
    Option (String × Nat) :=
  match tables with
  | [] => (k j).map (fun e => ("", e))
  | _ :: _ =>
    tables.findSome? (fun t =>
      if litAt t.data s j then
        (k (j + t.length)).map (fun e => (slice s j (j + t.length), e))
      else none)

/-! ### The four pattern families -/

/-- A keyword with `\b` on both sides at position `i`. -/
def kwTry (kw : String) (s : List Char) (i : Nat) : Bool :=
  litAt kw.data s i && atBoundary s i && atBoundary s (i + kw.length)

/-- The DML trigger keywords, in the pattern's alternation order. -/
def stmtKws : List String := ["SELECT", "INSERT", "UPDATE", "DELETE", "MODIFY"]

/-- `(?P<stmt>\bSELECT\b|\bINSERT\b|\bUPDATE\b|\bDELETE\b|\bMODIFY\b)` at `i`;
returns the captured text and the end position.  The keywords have pairwise
distinct first letters, so at most one alternative can match. -/
def stmtKwAt (s : List Char) (i : Nat) : Option (String × Nat) :=
  stmtKws.findSome? (fun kw =>
    if kwTry kw s i then some (slice s i (i + kw.length), i + kw.length) else none)

/-- `\b(FROM|INTO|UPDATE|DELETE\s+FROM)\b` at `j`; returns the end position.
The alternatives have pairwise distinct first letters, so at most one can
match at a given position. -/
def midKwAt (s : List Char) (j : Nat) : Option Nat :=
  if !atBoundary s j then none
  else if litAt "FROM".data s j then
    if atBoundary s (j + 4) then some (j + 4) else none
  else if litAt "INTO".data s j then
    if atBoundary s (j + 4) then some (j + 4) else none
  else if litAt "UPDATE".data s j then
    if atBoundary s (j + 6) then some (j + 6) else none
  else if litAt "DELETE".data s j then
    let sp := countRun isSpaceChar s (j + 6)
    if sp = 0 then none
    else if litAt "FROM".data s (j + 6 + sp) && atBoundary s (j + 10 + sp) then
      some (j + 10 + sp)
    else none
  else none

/-- The lazy gap `[\s\S]*?` of the DML pattern: try the shortest gap first,
growing one character at a time; at each end position `j` attempt
`\b(FROM|INTO|UPDATE|DELETE\s+FROM)\b\s+(?P<obj>TBL_GROUP)\b`.
Returns the captured table text and the end of the whole match. -/
def dmlGap (tables : List String) (s : List Char) : Nat → Nat → Option (String × Nat)
  | 0, _ => none
  | fuel + 1, j =>
    let step :=
      match midKwAt s j with
      | none => none
      | some j1 =>
        let sp := countRun isSpaceChar s j1
        if sp = 0 then none
        else altTables tables s (j1 + sp) (fun e => if atBoundary s e then some e else none)
    match step with
    | some r => some r
    | none => dmlGap tables s fuel (j + 1)

/-- The `DML` pattern anchored at `i`: trigger keyword, lazy gap, FROM-like
keyword, whitespace, table with closing `\b`.  Returns (stmt capture,
obj capture, end). -/
def dmlTry (tables : List String) (s : List Char) (i : Nat) :
    Option (String × String × Nat) :=
  match stmtKwAt s i with
  | none => none
  | some (st, j0) =>
    (dmlGap tables s (s.length + 1 - j0) j0).map (fun oe => (st, oe.1, oe.2))

/-- The `CLEAR` pattern `\bCLEAR\b\s+(?P<obj>TBL_GROUP)\b[\w\-]*` anchored
at `i`.  Returns (obj capture, end). -/
def clearTry (tables : List String) (s : List Char) (i : Nat) : Option (String × Nat) :=
  if kwTry "CLEAR" s i then
    let sp := countRun isSpaceChar s (i + 5)
    if sp = 0 then none
    else altTables tables s (i + 5 + sp) (fun e =>
      if atBoundary s e then some (e + countRun isWordHyphen s e) else none)
  else none

/-- Continuation after the left-hand table of the `ASSIGN` pattern:
`[\w\-]*\s*=\s*[\w\-\>]+`. -/
def assignLhsRest (s : List Char) (e : Nat) : Option Nat :=
  let a := e + countRun isWordHyphen s e
  let b := a + countRun isSpaceChar s a
  if s.get? b == some '=' then
    let c := b + 1 + countRun isSpaceChar s (b + 1)
    let d := countRun isTokChar s c
    if d = 0 then none else some (c + d)
  else none

/-- The `ASSIGN` pattern anchored at `i`:
`(?P<obj>TBL)[\w\-]*\s*=\s*[\w\-\>]+ | [\w\-\>]+\s*=\s*(?P<obj2>TBL)[\w\-]*`.
The first alternative is preferred.  Returns (obj, obj2, end); exactly one
of the two capture groups is set, as in the regex. -/
def assignTry (tables : List String) (s : List Char) (i : Nat) :
    Option (Option String × Option String × Nat) :=
  match altTables tables s i (assignLhsRest s) with
  | some (o, e) => some (some o, none, e)
  | none =>
    let t := countRun isTokChar s i
    if t = 0 then none
    else
      let b := i + t + countRun isSpaceChar s (i + t)
      if s.get? b == some '=' then
        let c := b + 1 + countRun isSpaceChar s (b + 1)
        match altTables tables s c (fun e => some (e + countRun isWordHyphen s e)) with
        | some (o2, e) => some (none, some o2, e)
        | none => none
      else none

/-- The `GENERIC` pattern `\b(?P<obj>TBL_GROUP)\b` anchored at `i`. -/
def genericTry (tables : List String) (s : List Char) (i : Nat) : Option (String × Nat) :=
  if atBoundary s i then
    altTables tables s i (fun e => if atBoundary s e then some e else none)
  else none

/-! ### `finditer` and the raw match records -/

/-- One raw regex match: span of the `full` group and the captured groups. -/
structure PreMatch where
  start : Nat
  stop : Nat
  stmt : Option String := none
  obj : Option String := none
  obj2 : Option String := none
deriving DecidableEq, Repr

/-- Python `finditer`: leftmost non-overlapping matches.  `tryAt` anchors
the pattern at one position; scanning resumes after each match (one past
it for a zero-width match).  `fuel` bounds the number of attempts; each
attempt advances the position, so `s.length + 1` attempts from 0 cover
every start position `0 .. s.length`. -/
def finditer (tryAt : Nat → Option PreMatch) : Nat → Nat → List PreMatch
  | 0, _ => []
  | fuel + 1, pos =>
    match tryAt pos with
    | some m => m :: finditer tryAt fuel (max m.stop (pos + 1))
    | none => finditer tryAt fuel (pos + 1)

/-- All matches of the `DML` regex over the text. -/
def dmlRaws (tables : List String) (s : List Char) : List PreMatch :=
  finditer (fun i => (dmlTry tables s i).map (fun r =>
    { start := i, stop := r.2.2, stmt := some r.1, obj := some r.2.1 })) (s.length + 1) 0

/-- All matches of the `CLEAR` regex over the text. -/
def clearRaws (tables : List String) (s : List Char) : List PreMatch :=
  finditer (fun i => (clearTry tables s i).map (fun r =>
    { start := i, stop := r.2, obj := some r.1 })) (s.length + 1) 0

/-- All matches of the `ASSIGN` regex over the text. -/
def assignRaws (tables : List String) (s : List Char) : List PreMatch :=
  finditer (fun i => (assignTry tables s i).map (fun r =>
    { start := i, stop := r.2.2, obj := r.1, obj2 := r.2.1 })) (s.length + 1) 0

/-- All matches of the `GENERIC` regex over the text. -/
def genericRaws (tables : List String) (s : List Char) : List PreMatch :=
  finditer (fun i => (genericTry tables s i).map (fun r =>
    { start := i, stop := r.2, obj := some r.1 })) (s.length + 1) 0

/-- The four families in the iteration order of the `REGEX` dict:
DML, CLEAR, ASSIGN, GENERIC. -/
def familyRaws (tables : List String) (s : List Char) : List (String × PreMatch) :=
  (dmlRaws tables s).map (fun m => ("DML", m)) ++
  (clearRaws tables s).map (fun m => ("CLEAR", m)) ++
  (assignRaws tables s).map (fun m => ("ASSIGN", m)) ++
  (genericRaws tables s).map (fun m => ("GENERIC", m))

/-! ### `find_table_usage` -/

/-- One entry of the list returned by `find_table_usage`. -/
structure RawMatch where
  pattern : String
  full : String
  stmt : Option String
  object : String
  replacement_table : Option String
  spanStart : Nat
  spanEnd : Nat
deriving DecidableEq, Repr

/-- Python truthiness of an optional string: `None` and `""` are falsy. -/
def truthyStr : Option String → Bool
  | some st => !(st == "")
  | none => false

/-- Python `a or b` on optional strings. -/
def pyOr (a b : Option String) : Option String := if truthyStr a then a else b

/-- `txt[:start].count("\n") + 1`: 1-based line of character offset `start`. -/
def relLine (s : List Char) (start : Nat) : Nat := (s.take start).count '\n' + 1

/-- Python `str.upper` (ASCII). -/
def pyUpper (x : String) : String := String.mk (x.data.map Char.toUpper)

/-- `TABLE_MAP.get(name)`: lookup in the mapping (keys are unique). -/
def tableLookup (tm : List (String × String)) (k : String) : Option String :=
  (tm.find? (fun p => p.1 == k)).map (fun p => p.2)

/-- The body of the scanning loop of `find_table_usage`: take the captured
object (`gd.get("obj") or gd.get("obj2")`), skip falsy captures, dedup by
`(object, line number, pattern family)`, and build the match record. -/
def processLoop (tm : List (String × String)) (s : List Char) :
    List (String × PreMatch) → List (String × Nat × String) → List RawMatch
  | [], _ => []
  | (fam, m) :: rest, seen =>
    match pyOr m.obj m.obj2 with
    | none => processLoop tm s rest seen
    | some obj =>
      if obj = "" then processLoop tm s rest seen
      else
        let line_no := relLine s m.start
        let key := (obj, line_no, fam)
        if key ∈ seen then processLoop tm s rest seen
        else
          { pattern := fam, full := slice s m.start m.stop, stmt := m.stmt,
            object := obj, replacement_table := tableLookup tm (pyUpper obj),
            spanStart := m.start, spanEnd := m.stop } ::
          processLoop tm s rest (key :: seen)

/-- Ascending order of match start offsets, the final sort key. -/
def spanLe (a b : RawMatch) : Prop := a.spanStart ≤ b.spanStart

instance : DecidableRel spanLe := fun a b => Nat.decLe _ _

instance : IsTotal RawMatch spanLe := ⟨fun a b => Nat.le_total _ _⟩

instance : IsTrans RawMatch spanLe := ⟨fun _ _ _ => Nat.le_trans⟩

/-- `find_table_usage(txt)`: run all four regexes, dedup, and sort by match
start offset (`matches.sort(key=lambda x: x["span"][0])` is a stable sort,
whose output the structural insertion sort reproduces exactly). -/
def find_table_usage (tm : List (String × String)) (txt : String) : List RawMatch :=
  let tables := sortTables (tm.map Prod.fst)
  let s := txt.data
  List.insertionSort spanLe (processLoop tm s (familyRaws tables s) [])

/-! ### `classify_issue` -/

/-- The classification returned by `classify_issue`. -/
structure IssueMeta where
  issue_type : String
  severity : String
  message : String
  suggestion : String
deriving DecidableEq, Repr

/-- `classify_issue(pattern_name, stmt, table_name, replacement)`. -/
def classify_issue (pattern_name : String) (stmt : Option String) (table_name : String)
    (replacement : Option String) : IssueMeta :=
  let stmt_upper := pyUpper (stmt.getD "")
  let ts : String × String :=
    if pattern_name = "DML" then
      if stmt_upper = "SELECT" then ("DirectRead", "warning")
      else ("DisallowedWrite", "error")
    else ("DirectRead", "info")
  if truthyStr replacement then
    { issue_type := ts.1, severity := ts.2,
      message := "Legacy table " ++ table_name ++ " is used in a " ++ pattern_name
        ++ " statement.",
      suggestion := "Use " ++ replacement.getD "" ++ " instead of " ++ table_name ++ "." }
  else
    { issue_type := ts.1, severity := ts.2,
      message := "Legacy table " ++ table_name
        ++ " is used but no replacement mapping is defined.",
      suggestion :=
        "Add an entry in tables.json for this table or refactor to a supported object." }

/-! ### `get_line_snippet`, units, issues, `remediate_tables` -/

/-- `get_line_snippet(text, start, end)`: the full line(s) containing the
match span, from just after the last newline before `start` to the first
newline at or after `stop`. -/
def get_line_snippet (s : List Char) (start stop : Nat) : String :=
  let pre := s.take start
  let line_start :=
    match pre.reverse.findIdx? (fun c => c == '\n') with
    | none => 0
    | some k => pre.length - k
  let line_end :=
    match (s.drop stop).findIdx? (fun c => c == '\n') with
    | none => s.length
    | some k => min stop s.length + k
  String.mk ((s.take line_end).drop line_start)

/-- One input unit of the request payload. -/
structure Unit where
  pgm_name : String
  inc_name : String
  type : String
  name : Option String := none
  class_implementation : Option String := none
  start_line : Option Int := none
  end_line : Option Int := none
  code : Option String := some ""
deriving DecidableEq, Repr, Inhabited

/-- One output issue of the response. -/
structure Issue where
  pgm_name : Option String := none
  inc_name : Option String := none
  type : Option String := none
  name : Option String := none
  start_line : Option Int := none
  end_line : Option Int := none
  issue_type : Option String := none
  severity : Option String := none
  message : Option String := none
  suggestion : Option String := none
  snippet : Option String := none
deriving DecidableEq, Repr, Inhabited

/-- `snippet_text.replace("\n", "\\n")`: escape every newline to the
two-character sequence backslash-n. -/
def escapeNl : List Char → List Char
  | [] => []
  | c :: cs => if c = '\n' then '\\' :: 'n' :: escapeNl cs else c :: escapeNl cs

/-- The body of the `remediate_tables` loop: build one `Issue` from one
match of `find_table_usage` on unit `u`.  `base_start = u.start_line or 0`
and `src = u.code or ""` (on optionals, Python `x or d` with a falsy
default is exactly `getD`). -/
def issueOf (u : Unit) (m : RawMatch) : Issue :=
  let src := u.code.getD ""
  let s := src.data
  let base : Int := u.start_line.getD 0
  let line_in_block := relLine s m.spanStart
  let snippet_text := get_line_snippet s m.spanStart m.spanEnd
  let snippet_line_count := snippet_text.data.count '\n' + 1
  let meta := classify_issue m.pattern m.stmt m.object m.replacement_table
  { pgm_name := some u.pgm_name, inc_name := some u.inc_name, type := some u.type,
    name := u.name,
    start_line := some (base + (line_in_block : Int)),
    end_line := some (base + (line_in_block : Int) + (snippet_line_count : Int)),
    issue_type := some meta.issue_type, severity := some meta.severity,
    message := some meta.message, suggestion := some meta.suggestion,
    snippet := some (String.mk (escapeNl snippet_text.data)) }

/-- POST `/remediate-tables`: scan every unit and collect all issues. -/
def remediate_tables (tm : List (String × String)) (units : List Unit) : List Issue :=
  units.flatMap (fun u => (find_table_usage tm (u.code.getD "")).map (issueOf u))

/-- The deduplication key of one reported match: `(object, line, family)`. -/
def keyOf (s : List Char) (m : RawMatch) : String × Nat × String :=
  (m.object, relLine s m.spanStart, m.pattern)

/-! ### Helper lemmas -/

/-- Escaping newlines leaves no literal newline in the snippet. -/
theorem escapeNl_no_newline (l : List Char) : '\n' ∉ escapeNl l := by
  induction l with
  | nil => simp [escapeNl]
  | cons c cs ih =>
    by_cases h : c = '\n'
    · simp only [escapeNl, if_pos h, List.mem_cons]
      push_neg
      exact ⟨by decide, by decide, ih⟩
    · simp only [escapeNl, if_neg h, List.mem_cons]
      push_neg
      exact ⟨fun hc => h hc.symm, ih⟩

/-- The scanning loop never emits two matches with the same deduplication
key, and never emits a key already recorded in `seen`. -/
theorem processLoop_keys_nodup (tm : List (String × String)) (s : List Char) :
    ∀ (items : List (String × PreMatch)) (seen : List (String × Nat × String)),
      ((processLoop tm s items seen).map (keyOf s)).Nodup ∧
      ∀ k ∈ (processLoop tm s items seen).map (keyOf s), k ∉ seen := by
  intro items
  induction items with
  | nil => intro seen; simp [processLoop]
  | cons hd rest ih =>
    intro seen
    obtain ⟨fam, m⟩ := hd
    cases hobj : pyOr m.obj m.obj2 with
    | none => simpa only [processLoop, hobj] using ih seen
    | some obj =>
      by_cases hemp : obj = ""
      · simpa only [processLoop, hobj, if_pos hemp] using ih seen
      · by_cases hseen : (obj, relLine s m.start, fam) ∈ seen
        · simpa only [processLoop, hobj, if_neg hemp, if_pos hseen] using ih seen
        · have ihh := ih ((obj, relLine s m.start, fam) :: seen)
          simp only [processLoop, hobj, if_neg hemp, if_neg hseen, List.map_cons,
            List.nodup_cons, List.mem_cons]
          refine ⟨⟨?_, ihh.1⟩, ?_⟩
          · intro hk
            have := ihh.2 _ hk
            simp only [List.mem_cons] at this
            push_neg at this
            exact this.1 rfl
          · rintro k (hk | hk)
            · subst hk; exact hseen
            · intro hks
              exact absurd (List.mem_cons_of_mem _ hks) (ihh.2 _ hk)

/-- If every raw match in `items` carries a falsy captured object, the
scanning loop emits nothing. -/
theorem processLoop_all_falsy (tm : List (String × String)) (s : List Char) :
    ∀ (items : List (String × PreMatch)) (seen : List (String × Nat × String)),
      (∀ p ∈ items, pyOr p.2.obj p.2.obj2 = none ∨ pyOr p.2.obj p.2.obj2 = some "") →
      processLoop tm s items seen = [] := by
  intro items
  induction items with
  | nil => intro seen _; rfl
  | cons hd rest ih =>
    intro seen hall
    obtain ⟨fam, m⟩ := hd
    have hrest : ∀ p ∈ rest, pyOr p.2.obj p.2.obj2 = none ∨ pyOr p.2.obj p.2.obj2 = some "" :=
      fun p hp => hall p (List.mem_cons_of_mem _ hp)
    rcases hall (fam, m) (List.mem_cons_self _ _) with h | h
    · simp only [processLoop, h]; exact ih seen hrest
    · simp only [processLoop, h, if_pos rfl]; exact ih seen hrest

/-- Every match produced by `finditer` satisfies any property preserved by
the anchored matcher. -/
theorem finditer_forall (P : PreMatch → Prop) (tryAt : Nat → Option PreMatch)
    (h : ∀ i m, tryAt i = some m → P m) :
    ∀ (fuel pos : Nat), ∀ m ∈ finditer tryAt fuel pos, P m := by
  intro fuel
  induction fuel with
  | zero => intro pos m hm; simp [finditer] at hm
  | succ fuel ih =>
    intro pos m hm
    simp only [finditer] at hm
    cases htry : tryAt pos with
    | none => rw [htry] at hm; exact ih _ m hm
    | some m' =>
      rw [htry] at hm
      rcases List.mem_cons.mp hm with rfl | hm'
      · exact h pos m htry
      · exact ih _ m hm'

/-- If the anchored matcher fails everywhere, `finditer` returns nothing. -/
theorem finditer_none (tryAt : Nat → Option PreMatch) (h : ∀ i, tryAt i = none) :
    ∀ (fuel pos : Nat), finditer tryAt fuel pos = [] := by
  intro fuel
  induction fuel with
  | zero => intro pos; rfl
  | succ fuel ih => intro pos; simp only [finditer, h pos]; exact ih _

/-- The empty alternation (empty mapping table) captures the empty string. -/
theorem altTables_nil_obj {s : List Char} {j : Nat} {k : Nat → Option Nat} {o : String}
    {e : Nat} (h : altTables [] s j k = some (o, e)) : o = "" := by
  cases hk : k j with
  | none => simp [altTables, hk] at h
  | some e' =>
    simp [altTables, hk] at h
    exact h.1.symm

/-- If no alternative matches at `j`, the (nonempty) alternation fails. -/
theorem altTables_none {tables : List String} {s : List Char} {j : Nat} {k : Nat → Option Nat}
    (hne : tables ≠ []) (h : ∀ t ∈ tables, litAt t.data s j = false) :
    altTables tables s j k = none := by
  cases tables with
  | nil => exact absurd rfl hne
  | cons t ts =>
    simp only [altTables]
    have : ∀ l : List String, (∀ t' ∈ l, litAt t'.data s j = false) →
        (List.findSome? (fun t' =>
          if litAt t'.data s j then
            (k (j + t'.length)).map (fun e => (slice s j (j + t'.length), e))
          else none) l) = none := by
      intro l
      induction l with
      | nil => intro _; rfl
      | cons a l ihl =>
        intro hl
        rw [List.findSome?_cons]
        rw [hl a (List.mem_cons_self _ _)]
        simp only [Bool.false_eq_true, if_false]
        exact ihl (fun t' ht' => hl t' (List.mem_cons_of_mem _ ht'))
    exact this (t :: ts) h

/-- With an empty table list, the DML tail can only capture the empty string. -/
theorem dmlGap_nil_obj {s : List Char} :
    ∀ {fuel j : Nat} {o : String} {e : Nat}, dmlGap [] s fuel j = some (o, e) → o = "" := by
  intro fuel
  induction fuel with
  | zero => intro j o e h; cases h
  | succ fuel ih =>
    intro j o e h
    simp only [dmlGap] at h
    split at h
    · rename_i r heq
      split at heq
      · cases heq
      · split at heq
        · cases heq
        · obtain ⟨o', e'⟩ := r
          cases h
          exact altTables_nil_obj heq
    · exact ih h

/-- With an empty table list, `dmlTry` can only capture the empty string. -/
theorem dmlTry_nil_obj {s : List Char} {i : Nat} {r : String × String × Nat}
    (h : dmlTry [] s i = some r) : r.2.1 = "" := by
  simp only [dmlTry] at h
  split at h
  · cases h
  · cases hg : dmlGap [] s (s.length + 1 - _) _ with
    | none => rw [hg] at h; cases h
    | some oe =>
      rw [hg] at h
      simp only [Option.map] at h
      cases h
      exact dmlGap_nil_obj hg

/-- With an empty table list, `clearTry` can only capture the empty string. -/
theorem clearTry_nil_obj {s : List Char} {i : Nat} {o : String} {e : Nat}
    (h : clearTry [] s i = some (o, e)) : o = "" := by
  simp only [clearTry] at h
  split at h
  · split at h
    · cases h
    · exact altTables_nil_obj h
  · cases h

/-- With an empty table list, `genericTry` can only capture the empty string. -/
theorem genericTry_nil_obj {s : List Char} {i : Nat} {o : String} {e : Nat}
    (h : genericTry [] s i = some (o, e)) : o = "" := by
  simp only [genericTry] at h
  split at h
  · exact altTables_nil_obj h
  · cases h

/-- With an empty table list, `assignTry`'s captures are falsy. -/
theorem assignTry_nil_falsy {s : List Char} {i : Nat} {r : Option String × Option String × Nat}
    (h : assignTry [] s i = some r) :
    pyOr r.1 r.2.1 = none ∨ pyOr r.1 r.2.1 = some "" := by
  simp only [assignTry] at h
  split at h
  · rename_i o e heq
    cases h
    have : o = "" := altTables_nil_obj heq
    subst this
    exact Or.inl (by decide : pyOr (some "") none = none)
  · split at h
    · cases h
    · split at h
      · split at h
        · rename_i o2 e heq
          cases h
          have : o2 = "" := altTables_nil_obj heq
          subst this
          exact Or.inr (by decide : pyOr none (some "") = some "")
        · cases h
      · cases h

/-- With an empty mapping every raw match of every family carries a falsy
captured object. -/
theorem familyRaws_falsy (s : List Char) :
    ∀ p ∈ familyRaws [] s, pyOr p.2.obj p.2.obj2 = none ∨ pyOr p.2.obj p.2.obj2 = some "" := by
  intro p hp
  simp only [familyRaws, List.mem_append, List.mem_map] at hp
  rcases hp with (((⟨m, hm, rfl⟩ | ⟨m, hm, rfl⟩) | ⟨m, hm, rfl⟩) | ⟨m, hm, rfl⟩)
  · have := finditer_forall (fun m => m.obj = some "" ∧ m.obj2 = none) _ ?_ _ _ m hm
    · rw [this.1, this.2]; left; decide
    · intro i m' h
      cases hd : dmlTry [] s i with
      | none => rw [hd] at h; cases h
      | some r =>
        rw [hd] at h
        simp only [Option.map] at h
        cases h
        exact ⟨by simpa using dmlTry_nil_obj hd, rfl⟩
  · have := finditer_forall (fun m => m.obj = some "" ∧ m.obj2 = none) _ ?_ _ _ m hm
    · rw [this.1, this.2]; left; decide
    · intro i m' h
      cases hd : clearTry [] s i with
      | none => rw [hd] at h; cases h
      | some r =>
        rw [hd] at h
        simp only [Option.map] at h
        cases h
        obtain ⟨o, e⟩ := r
        exact ⟨by simpa using clearTry_nil_obj hd, rfl⟩
  · have := finditer_forall
      (fun m => pyOr m.obj m.obj2 = none ∨ pyOr m.obj m.obj2 = some "") _ ?_ _ _ m hm
    · exact this
    · intro i m' h
      cases hd : assignTry [] s i with
      | none => rw [hd] at h; cases h
      | some r =>
        rw [hd] at h
        simp only [Option.map] at h
        cases h
        simpa using assignTry_nil_falsy hd
  · have := finditer_forall (fun m => m.obj = some "" ∧ m.obj2 = none) _ ?_ _ _ m hm
    · rw [this.1, this.2]; left; decide
    · intro i m' h
      cases hd : genericTry [] s i with
      | none => rw [hd] at h; cases h
      | some r =>
        rw [hd] at h
        simp only [Option.map] at h
        cases h
        obtain ⟨o, e⟩ := r
        exact ⟨by simpa using genericTry_nil_obj hd, rfl⟩

/-- If the sorted key set is empty, the finder returns no matches. -/
theorem find_nil_of_sort_nil (tm : List (String × String)) (txt : String)
    (htab : sortTables (tm.map Prod.fst) = []) : find_table_usage tm txt = [] := by
  simp only [find_table_usage, htab]
  rw [processLoop_all_falsy tm txt.data (familyRaws [] txt.data) [] (familyRaws_falsy txt.data)]
  rfl

/-- If no table name occurs anywhere in the text, the DML tail fails. -/
theorem dmlGap_none {t : String} {ts : List String} {s : List Char}
    (Hocc : ∀ j, ∀ t' ∈ t :: ts, litAt t'.data s j = false) :
    ∀ (fuel j : Nat), dmlGap (t :: ts) s fuel j = none := by
  intro fuel
  induction fuel with
  | zero => intro j; rfl
  | succ fuel ih =>
    intro j
    cases hmid : midKwAt s j with
    | none => simp only [dmlGap, hmid]; exact ih (j + 1)
    | some j1 =>
      by_cases hsp : countRun isSpaceChar s j1 = 0
      · simp only [dmlGap, hmid, if_pos hsp]; exact ih (j + 1)
      · simp only [dmlGap, hmid, if_neg hsp,
          altTables_none (List.cons_ne_nil t ts)
            (fun t' ht' => Hocc (j1 + countRun isSpaceChar s j1) t' ht')]
        exact ih (j + 1)

/-- If no table name occurs anywhere in the text, `dmlTry` fails. -/
theorem dmlTry_none {t : String} {ts : List String} {s : List Char}
    (Hocc : ∀ j, ∀ t' ∈ t :: ts, litAt t'.data s j = false) (i : Nat) :
    dmlTry (t :: ts) s i = none := by
  cases hst : stmtKwAt s i with
  | none => simp [dmlTry, hst]
  | some p => simp [dmlTry, hst, dmlGap_none Hocc]

/-- If no table name occurs anywhere in the text, `clearTry` fails. -/
theorem clearTry_none {t : String} {ts : List String} {s : List Char}
    (Hocc : ∀ j, ∀ t' ∈ t :: ts, litAt t'.data s j = false) (i : Nat) :
    clearTry (t :: ts) s i = none := by
  by_cases hkw : kwTry "CLEAR" s i
  · by_cases hsp : countRun isSpaceChar s (i + 5) = 0
    · simp [clearTry, if_pos hkw, if_pos hsp]
    · simp only [clearTry, if_pos hkw, if_neg hsp]
      exact altTables_none (List.cons_ne_nil t ts)
        (fun t' ht' => Hocc (i + 5 + countRun isSpaceChar s (i + 5)) t' ht')
  · simp [clearTry, if_neg hkw]

/-- If no table name occurs anywhere in the text, `assignTry` fails. -/
theorem assignTry_none {t : String} {ts : List String} {s : List Char}
    (Hocc : ∀ j, ∀ t' ∈ t :: ts, litAt t'.data s j = false) (i : Nat) :
    assignTry (t :: ts) s i = none := by
  simp only [assignTry,
    altTables_none (List.cons_ne_nil t ts) (fun t' ht' => Hocc i t' ht')]
  by_cases ht : countRun isTokChar s i = 0
  · simp [if_pos ht]
  · simp only [if_neg ht]
    set b := i + countRun isTokChar s i + countRun isSpaceChar s (i + countRun isTokChar s i)
    cases hq : (s.get? b == some '=') with
    | false => simp [hq]
    | true =>
      simp [hq,
        altTables_none (List.cons_ne_nil t ts)
          (fun t' ht' => Hocc (b + 1 + countRun isSpaceChar s (b + 1)) t' ht')]

/-- If no table name occurs anywhere in the text, `genericTry` fails. -/
theorem genericTry_none {t : String} {ts : List String} {s : List Char}
    (Hocc : ∀ j, ∀ t' ∈ t :: ts, litAt t'.data s j = false) (i : Nat) :
    genericTry (t :: ts) s i = none := by
  by_cases hb : atBoundary s i
  · simp only [genericTry, if_pos hb]
    exact altTables_none (List.cons_ne_nil t ts) (fun t' ht' => Hocc i t' ht')
  · simp [genericTry, if_neg hb]

/-- If no table name occurs anywhere in the text, the finder returns
no matches. -/
theorem find_none_of_no_occ (tm : List (String × String)) (txt : String) (t : String)
    (ts : List String) (htab : sortTables (tm.map Prod.fst) = t :: ts)
    (Hocc : ∀ j, ∀ t' ∈ t :: ts, litAt t'.data txt.data j = false) :
    find_table_usage tm txt = [] := by
  have hd : dmlRaws (t :: ts) txt.data = [] :=
    finditer_none _ (fun i => by rw [dmlTry_none Hocc i]; rfl) _ _
  have hc : clearRaws (t :: ts) txt.data = [] :=
    finditer_none _ (fun i => by rw [clearTry_none Hocc i]; rfl) _ _
  have ha : assignRaws (t :: ts) txt.data = [] :=
    finditer_none _ (fun i => by rw [assignTry_none Hocc i]; rfl) _ _
  have hg : genericRaws (t :: ts) txt.data = [] :=
    finditer_none _ (fun i => by rw [genericTry_none Hocc i]; rfl) _ _
  simp only [find_table_usage, htab, familyRaws, hd, hc, ha, hg]
  rfl

/-- The classification of `classify_issue` depends only on the family name
and the uppercased statement keyword. -/
theorem classify_kind (pattern_name : String) (stmt : Option String) (t : String)
    (r : Option String) :
    (classify_issue pattern_name stmt t r).issue_type
        = (if pattern_name = "DML" then
             if pyUpper (stmt.getD "") = "SELECT" then "DirectRead" else "DisallowedWrite"
           else "DirectRead")
    ∧ (classify_issue pattern_name stmt t r).severity
        = (if pattern_name = "DML" then
             if pyUpper (stmt.getD "") = "SELECT" then "warning" else "error"
           else "info") := by
  unfold classify_issue
  cases h : truthyStr r <;>
    by_cases hp : pattern_name = "DML" <;>
      by_cases hs : pyUpper (stmt.getD "") = "SELECT" <;>
        simp [h, hp, hs]

/-! ### Sample inputs for the concrete scenarios -/

/-- A unit whose code sits at declared absolute start line 100. -/
def sampleUnit : Unit :=
  { pgm_name := "P", inc_name := "I", type := "PROG", start_line := some 100,
    code := some "SELECT * FROM ZFOO WHERE X = 1" }

/-- A unit whose DML statement spans two source lines. -/
def multilineUnit : Unit :=
  { pgm_name := "P", inc_name := "I", type := "PROG", start_line := some 100,
    code := some "SELECT *\nFROM ZFOO WHERE X = 1" }

/-- The DML match of `sampleUnit`'s code. -/
def sampleMatch : RawMatch :=
  { pattern := "DML", full := "SELECT * FROM ZFOO", stmt := some "SELECT", object := "ZFOO",
    replacement_table := some "ZFOO_NEW", spanStart := 0, spanEnd := 18 }

/-! ### The claims -/

/-- Claim C1, counterexample: with mapping ZFOO to ZFOO_NEW, scanning
"SELECT * FROM ZFOO WHERE X = 1" yields TWO matches (the GENERIC family
independently reports ZFOO on the same line, and the dedup key includes
the family), not exactly one; and the suggestion text is
"Use ZFOO_NEW instead of ZFOO." (capital U, trailing period), not
"use ZFOO_NEW instead of ZFOO". -/
theorem claim_C1_counterexample :
    (find_table_usage [("ZFOO", "ZFOO_NEW")] "SELECT * FROM ZFOO WHERE X = 1").length = 2
    ∧ (classify_issue "DML" (some "SELECT") "ZFOO" (some "ZFOO_NEW")).suggestion
        ≠ "use ZFOO_NEW instead of ZFOO" := by
  exact ⟨by decide, by decide⟩

/-- Claim C1, amended: the scan yields exactly two matches; the first is
the DataManipulation match with keyword SELECT and identifier ZFOO, whose
issue has issue_type DirectRead, severity warning and suggestion
"Use ZFOO_NEW instead of ZFOO."; the second is the GENERIC match of the
same identifier. -/
theorem claim_C1_amended :
    find_table_usage [("ZFOO", "ZFOO_NEW")] "SELECT * FROM ZFOO WHERE X = 1"
      = [{ pattern := "DML", full := "SELECT * FROM ZFOO", stmt := some "SELECT",
           object := "ZFOO", replacement_table := some "ZFOO_NEW",
           spanStart := 0, spanEnd := 18 },
         { pattern := "GENERIC", full := "ZFOO", stmt := none, object := "ZFOO",
           replacement_table := some "ZFOO_NEW", spanStart := 14, spanEnd := 18 }]
    ∧ classify_issue "DML" (some "SELECT") "ZFOO" (some "ZFOO_NEW")
      = { issue_type := "DirectRead", severity := "warning",
          message := "Legacy table ZFOO is used in a DML statement.",
          suggestion := "Use ZFOO_NEW instead of ZFOO." } := by
  exact ⟨by decide, by decide⟩

/-- Claim C2, counterexample: a unit with declared start line 100 and a
match on the unit's first text line (relative line 1) reports absolute
start line 101, not 100. -/
theorem claim_C2_counterexample :
    ((find_table_usage [("ZFOO", "ZFOO_NEW")] "SELECT * FROM ZFOO WHERE X = 1").map
        (fun m => relLine "SELECT * FROM ZFOO WHERE X = 1".data m.spanStart) = [1, 1])
    ∧ ((remediate_tables [("ZFOO", "ZFOO_NEW")] [sampleUnit]).map (fun i => i.start_line)
        = [some 101, some 101])
    ∧ sampleUnit.start_line = some 100 := by
  exact ⟨by decide, by decide, rfl⟩

/-- Claim C2, amended: the reported absolute start line of every issue is
unit start line PLUS the 1-based relative line of the match (so a match on
the unit's first text line reports start_line + 1, not start_line). -/
theorem claim_C2_amended (tm : List (String × String)) (u : Unit) :
    (remediate_tables tm [u]).map (fun i => i.start_line)
      = (find_table_usage tm (u.code.getD "")).map
          (fun m => some ((u.start_line.getD 0)
            + (relLine (u.code.getD "").data m.spanStart : Int))) := by
  simp only [remediate_tables, List.flatMap_cons, List.flatMap_nil, List.append_nil,
    List.map_map]
  rfl

/-- Claim C3: the deduplication key is (identifier, 1-based start line,
family): no two returned matches share all three; two same-family matches
of one identifier on one line collapse to one ("ZFOO ZFOO"); and DML and
GENERIC matches of the same identifier on the same line are both kept. -/
theorem claim_C3 :
    (∀ (tm : List (String × String)) (txt : String),
        ((find_table_usage tm txt).map (keyOf txt.data)).Nodup)
    ∧ ((find_table_usage [("ZFOO", "ZFOO_NEW")] "SELECT * FROM ZFOO WHERE X = 1").map
        (keyOf "SELECT * FROM ZFOO WHERE X = 1".data)
        = [("ZFOO", 1, "DML"), ("ZFOO", 1, "GENERIC")])
    ∧ (find_table_usage [("ZFOO", "ZFOO_NEW")] "ZFOO ZFOO").length = 1 := by
  refine ⟨?_, by decide, by decide⟩
  intro tm txt
  have h := (processLoop_keys_nodup tm txt.data
    (familyRaws (sortTables (tm.map Prod.fst)) txt.data) []).1
  have hp : (find_table_usage tm txt).Perm
      (processLoop tm txt.data (familyRaws (sortTables (tm.map Prod.fst)) txt.data) []) :=
    List.perm_insertionSort spanLe _
  exact ((hp.map (keyOf txt.data)).nodup_iff).mpr h

/-- Claim C4: the classifier maps DML with SELECT to DirectRead/warning,
DML with INSERT, UPDATE, DELETE or MODIFY to DisallowedWrite/error, and
every CLEAR, ASSIGN or GENERIC match to DirectRead/info; in particular
"DELETE FROM ZBAR" with ZBAR mapped produces a DisallowedWrite error. -/
theorem claim_C4 :
    (∀ (st : Option String) (t : String) (r : Option String),
      ((classify_issue "DML" (some "SELECT") t r).issue_type = "DirectRead"
        ∧ (classify_issue "DML" (some "SELECT") t r).severity = "warning")
      ∧ ((classify_issue "DML" (some "INSERT") t r).issue_type = "DisallowedWrite"
        ∧ (classify_issue "DML" (some "INSERT") t r).severity = "error")
      ∧ ((classify_issue "DML" (some "UPDATE") t r).issue_type = "DisallowedWrite"
        ∧ (classify_issue "DML" (some "UPDATE") t r).severity = "error")
      ∧ ((classify_issue "DML" (some "DELETE") t r).issue_type = "DisallowedWrite"
        ∧ (classify_issue "DML" (some "DELETE") t r).severity = "error")
      ∧ ((classify_issue "DML" (some "MODIFY") t r).issue_type = "DisallowedWrite"
        ∧ (classify_issue "DML" (some "MODIFY") t r).severity = "error")
      ∧ ((classify_issue "CLEAR" st t r).issue_type = "DirectRead"
        ∧ (classify_issue "CLEAR" st t r).severity = "info")
      ∧ ((classify_issue "ASSIGN" st t r).issue_type = "DirectRead"
        ∧ (classify_issue "ASSIGN" st t r).severity = "info")
      ∧ ((classify_issue "GENERIC" st t r).issue_type = "DirectRead"
        ∧ (classify_issue "GENERIC" st t r).severity = "info"))
    ∧ ((find_table_usage [("ZBAR", "ZBAR_NEW")] "DELETE FROM ZBAR").map
        (fun m => ((classify_issue m.pattern m.stmt m.object m.replacement_table).issue_type,
                   (classify_issue m.pattern m.stmt m.object m.replacement_table).severity))
        = [("DisallowedWrite", "error"), ("DirectRead", "info")]) := by
  constructor
  · intro st t r
    refine ⟨⟨?_, ?_⟩, ⟨?_, ?_⟩, ⟨?_, ?_⟩, ⟨?_, ?_⟩, ⟨?_, ?_⟩, ⟨?_, ?_⟩, ⟨?_, ?_⟩, ⟨?_, ?_⟩⟩
    · exact (classify_kind _ _ t r).1.trans (by decide)
    · exact (classify_kind _ _ t r).2.trans (by decide)
    · exact (classify_kind _ _ t r).1.trans (by decide)
    · exact (classify_kind _ _ t r).2.trans (by decide)
    · exact (classify_kind _ _ t r).1.trans (by decide)
    · exact (classify_kind _ _ t r).2.trans (by decide)
    · exact (classify_kind _ _ t r).1.trans (by decide)
    · exact (classify_kind _ _ t r).2.trans (by decide)
    · exact (classify_kind _ _ t r).1.trans (by decide)
    · exact (classify_kind _ _ t r).2.trans (by decide)
    · exact (classify_kind "CLEAR" st t r).1.trans (if_neg (by decide))
    · exact (classify_kind "CLEAR" st t r).2.trans (if_neg (by decide))
    · exact (classify_kind "ASSIGN" st t r).1.trans (if_neg (by decide))
    · exact (classify_kind "ASSIGN" st t r).2.trans (if_neg (by decide))
    · exact (classify_kind "GENERIC" st t r).1.trans (if_neg (by decide))
    · exact (classify_kind "GENERIC" st t r).2.trans (if_neg (by decide))
  · decide

/-- Claim C5, counterexample: with the mapping containing ZTAB and its
strict textual extension ZTAB-X, the longer identifier occurs at position
0 of the text "ZTAB-XY", yet the scan reports the shorter prefix ZTAB for
that occurrence, at span (0, 4), and never ZTAB-X: the longer alternative
is tried first but its trailing word boundary fails before the word
character Y, and the alternation falls back to the shorter name. -/
theorem claim_C5_counterexample :
    litAt ("ZTAB-X" : String).data ("ZTAB-XY" : String).data 0 = true
    ∧ ((find_table_usage [("ZTAB", "ZTAB_NEW"), ("ZTAB-X", "ZTABX_NEW")] "ZTAB-XY").map
        (fun m => (m.object, m.spanStart, m.spanEnd)) = [("ZTAB", 0, 4)]) := by
  exact ⟨by decide, by decide⟩

/-- Claim C5, amended: the identifier alternation built from any key set
is sorted by descending name length, and the first alternative whose
literal match and continuation both succeed is the one captured, so a
longer identifier is preferred over a shorter textual prefix wherever the
longer one's own match (with any required trailing boundary) succeeds; in
particular, with ZTAB and ZTAB_EXT both mapped, "SELECT * FROM ZTAB_EXT"
reports ZTAB_EXT and never ZTAB. -/
theorem claim_C5_amended :
    (∀ ts : List String, List.Sorted lenGe (sortTables ts))
    ∧ (∀ (t1 : String) (rest : List String) (s : List Char) (j : Nat) (k : Nat → Option Nat)
        (e : Nat), litAt t1.data s j = true → k (j + t1.length) = some e →
        altTables (t1 :: rest) s j k = some (slice s j (j + t1.length), e))
    ∧ sortTables ["ZTAB", "ZTAB_EXT"] = ["ZTAB_EXT", "ZTAB"]
    ∧ ((find_table_usage [("ZTAB", "ZTAB_NEW"), ("ZTAB_EXT", "ZTAB_EXT_NEW")]
          "SELECT * FROM ZTAB_EXT").map (fun m => m.object) = ["ZTAB_EXT", "ZTAB_EXT"]) := by
  refine ⟨fun ts => List.sorted_insertionSort lenGe ts, ?_, by decide, by decide⟩
  intro t1 rest s j k e h1 h2
  simp [altTables, List.findSome?_cons, h1, h2]

/-- Claim C5, witness: at position 14 of "SELECT * FROM ZTAB_EXT" the
longer alternative ZTAB_EXT matches with its trailing boundary, so the
longest-first alternation captures ZTAB_EXT there. -/
theorem claim_C5_witness :
    (litAt ("ZTAB_EXT" : String).data ("SELECT * FROM ZTAB_EXT" : String).data 14 = true)
    ∧ ((fun e => if atBoundary ("SELECT * FROM ZTAB_EXT" : String).data e then some e
          else none) (14 + ("ZTAB_EXT" : String).length) = some 22)
    ∧ (altTables ["ZTAB_EXT", "ZTAB"] ("SELECT * FROM ZTAB_EXT" : String).data 14
        (fun e => if atBoundary ("SELECT * FROM ZTAB_EXT" : String).data e then some e
          else none)
        = some (slice ("SELECT * FROM ZTAB_EXT" : String).data 14
            (14 + ("ZTAB_EXT" : String).length), 22)) :=
  ⟨by decide, by decide,
    claim_C5_amended.2.1 "ZTAB_EXT" ["ZTAB"] ("SELECT * FROM ZTAB_EXT" : String).data 14
      (fun e => if atBoundary ("SELECT * FROM ZTAB_EXT" : String).data e then some e
        else none) 22 (by decide) (by decide)⟩

/-- Claim C6: for every mapping and every text, the matches returned by
`find_table_usage` are sorted by ascending start character offset. -/
theorem claim_C6 (tm : List (String × String)) (txt : String) :
    List.Sorted spanLe (find_table_usage tm txt) :=
  List.sorted_insertionSort spanLe _

/-- Claim C7: with an empty mapping table the finder returns no matches
for every input text (the empty alternation can only capture the empty
string, which the falsy-object guard skips). -/
theorem claim_C7 (txt : String) : find_table_usage [] txt = [] :=
  find_nil_of_sort_nil [] txt rfl

/-- Claim C8, counterexample: "XZTAB = 1" contains no whole-word
occurrence of the only known identifier ZTAB, yet the finder reports a
match (the ASSIGN pattern has no word boundary around its table group). -/
theorem claim_C8_counterexample :
    ((List.range (("XZTAB = 1" : String).length + 1)).all
        (fun i => !(litAt "ZTAB".data ("XZTAB = 1" : String).data i
          && atBoundary ("XZTAB = 1" : String).data i
          && atBoundary ("XZTAB = 1" : String).data (i + 4))) = true)
    ∧ find_table_usage [("ZTAB", "ZTAB_NEW")] "XZTAB = 1" ≠ [] := by
  exact ⟨by decide, by decide⟩

/-- Claim C8, amended: for every text in which no known identifier occurs
as a substring (case-insensitively, at any position), the finder returns
the empty match list; in particular this covers the empty text. -/
theorem claim_C8_amended (tm : List (String × String)) (txt : String)
    (H : ∀ i ≤ txt.length, ∀ t ∈ sortTables (tm.map Prod.fst),
        litAt t.data txt.data i = false) :
    find_table_usage tm txt = [] := by
  cases htab : sortTables (tm.map Prod.fst) with
  | nil => exact find_nil_of_sort_nil tm txt htab
  | cons t ts =>
    have Hocc : ∀ j, ∀ t' ∈ t :: ts, litAt t'.data txt.data j = false := by
      intro j t' ht'
      by_cases hj : j ≤ txt.length
      · exact H j hj t' (htab ▸ ht')
      · by_cases hz : t'.data = []
        · have h0 := H 0 (Nat.zero_le _) t' (htab ▸ ht')
          rw [hz] at h0
          simp [litAt] at h0
        · have hdrop : txt.data.drop j = [] := by
            apply List.drop_eq_nil_of_le
            have hlen : txt.length = txt.data.length := rfl
            omega
          simp only [litAt, hdrop, List.take_nil, List.map_nil]
          cases hcd : t'.data with
          | nil => exact absurd hcd hz
          | cons c cs => rfl
    exact find_none_of_no_occ tm txt t ts htab Hocc

/-- Claim C8, witness: "PRINT HELLO" contains no occurrence of ZFOO and
the finder returns the empty list on it. -/
theorem claim_C8_witness :
    (∀ i ≤ ("PRINT HELLO" : String).length,
        ∀ t ∈ sortTables ([("ZFOO", "ZFOO_NEW")].map Prod.fst),
          litAt t.data ("PRINT HELLO" : String).data i = false)
    ∧ find_table_usage [("ZFOO", "ZFOO_NEW")] "PRINT HELLO" = [] :=
  ⟨by decide, claim_C8_amended [("ZFOO", "ZFOO_NEW")] "PRINT HELLO" (by decide)⟩

/-- Claim C9, counterexample: for matches lying on a single source line
(relative start line = relative end line = 1) the reported span is
start_line 101, end_line 102: the two ends differ although the snippet is
one line. -/
theorem claim_C9_counterexample :
    ((find_table_usage [("ZFOO", "ZFOO_NEW")] "SELECT * FROM ZFOO WHERE X = 1").map
        (fun m => (relLine "SELECT * FROM ZFOO WHERE X = 1".data m.spanStart,
                   relLine "SELECT * FROM ZFOO WHERE X = 1".data m.spanEnd))
        = [(1, 1), (1, 1)])
    ∧ ((remediate_tables [("ZFOO", "ZFOO_NEW")] [sampleUnit]).map
        (fun i => (i.start_line, i.end_line))
        = [(some 101, some 102), (some 101, some 102)]) := by
  exact ⟨by decide, by decide⟩

/-- Claim C9, amended: the reported end line is start line plus the
snippet's line count, so for every match whose snippet lies on a single
source line the issue's end_line equals its start_line PLUS ONE. -/
theorem claim_C9_amended (u : Unit) (m : RawMatch)
    (h : (get_line_snippet (u.code.getD "").data m.spanStart m.spanEnd).data.count '\n' = 0) :
    (issueOf u m).end_line = (issueOf u m).start_line.map (fun x => x + 1) := by
  simp only [issueOf, Option.map_some]
  rw [h]
  norm_num

/-- Claim C9, witness: the single-line DML match of `sampleUnit` gets
end_line = start_line + 1. -/
theorem claim_C9_witness :
    (get_line_snippet (sampleUnit.code.getD "").data sampleMatch.spanStart
        sampleMatch.spanEnd).data.count '\n' = 0
    ∧ (issueOf sampleUnit sampleMatch).end_line
        = (issueOf sampleUnit sampleMatch).start_line.map (fun x => x + 1) :=
  ⟨by decide, claim_C9_amended sampleUnit sampleMatch (by decide)⟩

/-- Claim C10: every issue's snippet contains no literal newline: each
line break of the extracted snippet is replaced by the two-character
sequence backslash-n before the issue is built. -/
theorem claim_C10 (tm : List (String × String)) (units : List Unit) (i : Issue)
    (hmem : i ∈ remediate_tables tm units) (st : String) (hs : i.snippet = some st) :
    '\n' ∉ st.data := by
  simp only [remediate_tables, List.mem_flatMap, List.mem_map] at hmem
  obtain ⟨u, hu, m, hm, rfl⟩ := hmem
  have hsnip : (issueOf u m).snippet
      = some (String.mk (escapeNl
          (get_line_snippet (u.code.getD "").data m.spanStart m.spanEnd).data)) := rfl
  rw [hsnip] at hs
  injection hs with hs
  rw [← hs]
  exact escapeNl_no_newline _

/-- Claim C10, witness: the snippet of the first issue of
`multilineUnit` (whose match spans a line break) carries the visible
backslash-n sequence and no literal newline. -/
theorem claim_C10_witness :
    '\n' ∉ ("SELECT *\\nFROM ZFOO WHERE X = 1" : String).data :=
  claim_C10 [("ZFOO", "ZFOO_NEW")] [multilineUnit]
    ((remediate_tables [("ZFOO", "ZFOO_NEW")] [multilineUnit]).headD default)
    (by decide) "SELECT *\\nFROM ZFOO WHERE X = 1" (by decide)

end AssessTables
